import Mathlib

/-!
Shallow embedding of the credential-lifecycle core of the repository:
`src/utils/scope_manager.py` (class `ScopeManager`) and
`src/auth/google_auth.py` (class `GoogleAuthManager`).

Python dicts are modelled as association lists (`List (String × α)`);
Python sets are modelled as lists up to duplication (`List.dedup` at the
points where the source materialises a `set`), with set-level facts stated
via `List.toFinset`.  Timestamps are seconds as `Int`.  The external OAuth
token-exchange endpoint and the interactive authorization flow are
abstracted as an environment `Env` supplying their outcomes, exactly at the
boundary where the source calls `self.creds.refresh(Request())` and
`self._authenticate()`.
-/

/-- First-match lookup in an association list: the model of `d[k]` /
`k in d` / `d.get(k)` on a Python dict with unique keys. -/
def alist_get {α : Type} (l : List (String × α)) (k : String) : Option α :=
  match l with
  | [] => none
  | (k', v) :: rest => if k' = k then some v else alist_get rest k

/-- The scope configuration record (`config/scopes.json` contents).
Each top-level key of the JSON object may be absent, hence `Option`;
`config.get(key, {})` in the source becomes `(·.getD [])`. -/
structure ScopeConfig where
  enabled_services : Option (List (String × Bool))
  scope_dependencies : Option (List (String × List String))
  scope_mappings : Option (List (String × String))
  service_descriptions : Option (List (String × String))
deriving DecidableEq

/-- `ScopeManager._get_default_config` (scope_manager.py lines 35-65). -/
def get_default_config : ScopeConfig :=
  { enabled_services := some
      [("calendar", true), ("gmail", true), ("docs", true), ("drive", true)]
  , scope_dependencies := some
      [("docs", ["drive"]), ("sheets", ["drive"]), ("slides", ["drive"])]
  , scope_mappings := some
      [ ("calendar", "https://www.googleapis.com/auth/calendar")
      , ("gmail", "https://www.googleapis.com/auth/gmail.modify")
      , ("docs", "https://www.googleapis.com/auth/documents")
      , ("sheets", "https://www.googleapis.com/auth/spreadsheets")
      , ("slides", "https://www.googleapis.com/auth/presentations")
      , ("drive", "https://www.googleapis.com/auth/drive.file") ]
  , service_descriptions := some
      [ ("calendar", "Create, view, and manage calendar events")
      , ("gmail", "Send, read, and manage email messages")
      , ("docs", "Create and edit Google Documents")
      , ("sheets", "Create and edit Google Spreadsheets")
      , ("slides", "Create and edit Google Presentations")
      , ("drive", "Access Google Drive files (required for Docs/Sheets/Slides)") ] }

/-- What the constructor finds at `config_path`: the file is absent, exists
but raises on open/parse, or parses to a configuration record. -/
inductive ConfigSource
  | absent
  | unreadable (msg : String)
  | parsed (cfg : ScopeConfig)
deriving DecidableEq

/-- `ScopeManager._load_config` (scope_manager.py lines 18-33): absent file
falls back to the default; any exception while reading/parsing is caught
and also falls back to the default; a parsed file is used as-is. -/
def load_config : ConfigSource → ScopeConfig
  | .absent => get_default_config
  | .unreadable _ => get_default_config
  | .parsed cfg => cfg

/-- `ScopeManager.get_enabled_services` (lines 67-73): the services whose
flag is truthy in `enabled_services`. -/
def get_enabled_services (cfg : ScopeConfig) : List String :=
  ((cfg.enabled_services.getD []).filter (fun p => p.2)).map (fun p => p.1)

/-- The set `required_services` built inside `get_required_scopes`
(lines 77-84): the enabled services plus, for each enabled service, its
directly declared dependencies.  The Python `set` is modelled by `dedup`. -/
def get_required_services (cfg : ScopeConfig) : List String :=
  (get_enabled_services cfg ++
    (get_enabled_services cfg).flatMap
      (fun s => (alist_get (cfg.scope_dependencies.getD []) s).getD [])).dedup

/-- `ScopeManager.get_required_scopes` (lines 75-98): maps each required
service to its scope string; a service with no mapping is skipped (the
source only logs a warning for it). -/
def get_required_scopes (cfg : ScopeConfig) : List String :=
  (get_required_services cfg).filterMap
    (fun s => alist_get (cfg.scope_mappings.getD []) s)

/-- `ScopeManager._validate_dependencies` (lines 100-115): for each enabled
service, every declared dependency must be present and enabled. -/
def validate_dependencies_errors (cfg : ScopeConfig) : List String :=
  (get_enabled_services cfg).flatMap (fun s =>
    ((alist_get (cfg.scope_dependencies.getD []) s).getD []).filterMap (fun dep =>
      if (alist_get (cfg.enabled_services.getD []) dep).getD false then none
      else some ("Service \x27" ++ s ++ "\x27 requires \x27" ++ dep ++
        "\x27 to be enabled")))

/-- `ScopeManager._validate_scope_mappings` (lines 117-131): every service
in the (one-level) required closure must have a scope mapping. -/
def validate_scope_mappings_errors (cfg : ScopeConfig) : List String :=
  (get_required_services cfg).filterMap (fun s =>
    if (alist_get (cfg.scope_mappings.getD []) s).isSome then none
    else some ("Missing scope mapping for service: " ++ s))

/-- `ScopeManager.validate_configuration` (lines 133-158): key presence is
checked first and short-circuits; otherwise dependency and mapping errors
are collected and `ok` is their emptiness. -/
def validate_configuration (cfg : ScopeConfig) : Bool × List String :=
  let keyErrors :=
    (if cfg.enabled_services.isSome then []
     else ["Missing required config key: enabled_services"]) ++
    (if cfg.scope_dependencies.isSome then []
     else ["Missing required config key: scope_dependencies"]) ++
    (if cfg.scope_mappings.isSome then []
     else ["Missing required config key: scope_mappings"])
  if keyErrors.isEmpty then
    let errors := validate_dependencies_errors cfg ++ validate_scope_mappings_errors cfg
    (errors.isEmpty, errors)
  else (false, keyErrors)

/-- `ScopeManager.has_scope_changes` (lines 188-201): compares the required
scopes and the supplied scopes as sets. -/
def has_scope_changes (cfg : ScopeConfig) (current_scopes : List String) : Bool :=
  decide ((get_required_scopes cfg).toFinset ≠ current_scopes.toFinset)

/-- The in-memory OAuth2 credential (`google.oauth2.credentials.Credentials`
as used by `google_auth.py`): the library-reported `valid` and `expired`
flags, the optional `expiry` timestamp (seconds), whether a refresh token
is present, the granted `scopes`, and the access-token value. -/
structure Credential where
  token : String
  valid : Bool
  expired : Bool
  expiry : Option Int
  refresh_token_present : Bool
  scopes : List String
deriving DecidableEq

/-- Mutable state of one `GoogleAuthManager` instance.  `now` is the clock
read by `datetime.now(timezone.utc)` (held fixed across a call).  The
`refresh_calls` / `auth_calls` counters count invocations of
`self.creds.refresh(Request())` and of `self._authenticate()`; `saved`
and `save_calls` model the pickle written by `save_credentials`. -/
structure AuthState where
  config : ScopeConfig
  creds : Option Credential
  now : Int
  refresh_calls : Nat
  auth_calls : Nat
  save_calls : Nat
  saved : Option Credential
deriving DecidableEq

/-- Python exceptions that escape the modelled methods. -/
inductive PyError
  | runtimeError (errors : List String)
  | attributeError
  | authError (msg : String)
deriving DecidableEq

/-- The external world: the token-exchange endpoint behind
`creds.refresh(Request())` and the full authorization flow behind
`_authenticate()` (service-account load, OAuth browser flow, or
`FileNotFoundError` when the client-secrets file is missing). -/
structure Env where
  refresh : Credential → Except String Credential
  authenticate : Except String Credential

/-- `GoogleAuthManager.TOKEN_REFRESH_BUFFER` (google_auth.py line 26). -/
def TOKEN_REFRESH_BUFFER : Int := 600

/-- `GoogleAuthManager.should_refresh_token` (lines 154-166): false when
there is no credential or no expiry; otherwise true iff the time until
expiry is at most the refresh buffer. -/
def should_refresh_token (s : AuthState) : Bool :=
  match s.creds with
  | none => false
  | some c =>
    match c.expiry with
    | none => false
    | some t => decide (t - s.now ≤ TOKEN_REFRESH_BUFFER)

/-- `GoogleAuthManager.save_credentials` (lines 187-195): a no-op when no
credential is held, otherwise pickles the current credential. -/
def save_credentials (s : AuthState) : AuthState :=
  match s.creds with
  | none => s
  | some c => { s with saved := some c, save_calls := s.save_calls + 1 }

/-- The `self._authenticate(); self.save_credentials()` sequence (used at
google_auth.py lines 90-91 and 184-185): on flow success the new
credential replaces the old one and is persisted; on failure the raised
exception propagates and the held credential is unchanged. -/
def authenticate_and_save (e : Env) (s : AuthState) : AuthState × Option PyError :=
  match e.authenticate with
  | .ok c =>
    (save_credentials { s with creds := some c, auth_calls := s.auth_calls + 1 }, none)
  | .error m =>
    ({ s with auth_calls := s.auth_calls + 1 }, some (.authError m))

/-- `GoogleAuthManager.refresh_token` (lines 168-185): calls the refresh
endpoint and persists on success; a `RefreshError` is caught and the full
authorization flow is run instead.  Calling it with `creds = None` raises
an `AttributeError` at `self.creds.refresh`. -/
def refresh_token (e : Env) (s : AuthState) : AuthState × Option PyError :=
  match s.creds with
  | none => (s, some .attributeError)
  | some c =>
    match e.refresh c with
    | .ok c' =>
      (save_credentials { s with creds := some c', refresh_calls := s.refresh_calls + 1 }, none)
    | .error _ =>
      authenticate_and_save e { s with refresh_calls := s.refresh_calls + 1 }

/-- `self.creds and self.creds.valid` as read by `ensure_valid_credentials`. -/
def credsValid (s : AuthState) : Bool :=
  match s.creds with
  | none => false
  | some c => c.valid

/-- `GoogleAuthManager.ensure_valid_credentials` (lines 197-220): under the
refresh lock, refresh proactively when within the buffer, else reactively
when the credential is missing or invalid, else do nothing; then return
`self.creds`.  The lock serialises the body, so the function is modelled
as an atomic state transition; an escaping exception leaves the mutated
state in place (it lives on the manager object). -/
def ensure_valid_credentials (e : Env) (s : AuthState) :
    AuthState × Except PyError (Option Credential) :=
  let step :=
    if should_refresh_token s then refresh_token e s
    else if !credsValid s then refresh_token e s
    else (s, none)
  match step with
  | (s', none) => (s', .ok s'.creds)
  | (s', some pe) => (s', .error pe)

/-- `GoogleAuthManager.initialize` (lines 51-93): validates the scope
configuration (raising `RuntimeError` when invalid), loads the pickled
credential when the token file exists, forces re-authentication when the
stored scopes are non-empty and drift from the required scopes, then
refreshes an expired-but-refreshable credential or runs the full
authorization flow. -/
def initializeManager (e : Env) (stored : Option Credential) (s : AuthState) :
    AuthState × Option PyError :=
  let v := validate_configuration s.config
  if v.1 = false then (s, some (.runtimeError v.2))
  else
    let loadStep :=
      match stored with
      | none => (s, false)
      | some c0 =>
        if !c0.scopes.isEmpty && has_scope_changes s.config c0.scopes then
          ({ s with creds := none }, true)
        else ({ s with creds := some c0 }, false)
    let s1 := loadStep.1
    let needsReauth := loadStep.2
    match s1.creds with
    | none => authenticate_and_save e s1
    | some c =>
      if !c.valid || needsReauth then
        if c.expired && c.refresh_token_present && !needsReauth then
          refresh_token e s1
        else authenticate_and_save e s1
      else (s1, none)

/-- `n` lock-serialised calls to `ensure_valid_credentials` against one
manager: because the refresh lock makes each call's body atomic, a burst
of concurrent callers executes as some sequence of these transitions. -/
def ensureValidN (e : Env) : Nat → AuthState → AuthState
  | 0, s => s
  | n + 1, s => ensureValidN e n (ensure_valid_credentials e s).1

/-! ## Concrete instances used by counterexamples and witnesses -/

/-- Configuration whose one enabled service has no scope mapping. -/
def cfgNoMapping : ScopeConfig :=
  { enabled_services := some [("calendar", true)]
  , scope_dependencies := some []
  , scope_mappings := some []
  , service_descriptions := none }

/-- Configuration with a two-level dependency chain a → b → c. -/
def cfgChain : ScopeConfig :=
  { enabled_services := some [("a", true)]
  , scope_dependencies := some [("a", ["b"]), ("b", ["c"])]
  , scope_mappings := some [("a", "scope:a"), ("b", "scope:b"), ("c", "scope:c")]
  , service_descriptions := none }

/-! ## Theorems -/

/-- C9: when the configuration record is absent, the ScopeManager falls
back to the fixed default configuration, in which every integration listed
in the enabled-integrations map is enabled and the dependency map is
docs → drive, sheets → drive, slides → drive. -/
theorem c9_default_config_on_absent :
    load_config .absent = get_default_config ∧
    (get_default_config.enabled_services.getD []).all (fun p => p.2) = true ∧
    get_default_config.enabled_services =
      some [("calendar", true), ("gmail", true), ("docs", true), ("drive", true)] ∧
    get_default_config.scope_dependencies =
      some [("docs", ["drive"]), ("sheets", ["drive"]), ("slides", ["drive"])] :=
  ⟨rfl, rfl, rfl, rfl⟩

/-- C10: a configuration file that exists but cannot be read or parsed is
handled by catching the exception; construction succeeds (the loader is a
total function) and yields exactly the default configuration, the same
result as when the file is absent. -/
theorem c10_unreadable_config_falls_back (m : String) :
    load_config (.unreadable m) = get_default_config ∧
    load_config (.unreadable m) = load_config .absent :=
  ⟨rfl, rfl⟩

/-- C6: `has_scope_changes s` is false iff `s` equals the required scopes
as a set; it is invariant under permutation of `s`; and both a strict
subset and a strict superset of the required set yield true. -/
theorem c6_has_scope_changes_set_semantics (cfg : ScopeConfig) (s s' : List String)
    (hperm : s.Perm s') :
    (has_scope_changes cfg s = false ↔
      s.toFinset = (get_required_scopes cfg).toFinset) ∧
    has_scope_changes cfg s = has_scope_changes cfg s' ∧
    (s.toFinset ⊂ (get_required_scopes cfg).toFinset → has_scope_changes cfg s = true) ∧
    ((get_required_scopes cfg).toFinset ⊂ s.toFinset → has_scope_changes cfg s = true) := by
  refine ⟨?_, ?_, ?_, ?_⟩
  · simp only [has_scope_changes, decide_eq_false_iff_not, not_ne_iff]
    exact eq_comm
  · simp only [has_scope_changes, List.toFinset_eq_of_perm _ _ hperm]
  · intro hss
    simp only [has_scope_changes, decide_eq_true_eq]
    exact fun heq => hss.ne heq.symm
  · intro hss
    simp only [has_scope_changes, decide_eq_true_eq]
    exact hss.ne

/-- Witness for C6: the required scopes themselves are reported unchanged. -/
theorem c6_has_scope_changes_set_semantics_witness :
    has_scope_changes get_default_config (get_required_scopes get_default_config) = false :=
  (c6_has_scope_changes_set_semantics get_default_config
    (get_required_scopes get_default_config) (get_required_scopes get_default_config)
    (List.Perm.refl _)).1.mpr rfl

/-- Counterexample for C2: with service "calendar" enabled and an empty
scope-mapping table, "calendar" is in the required closure and has no
mapping, yet `get_required_scopes` raises nothing and returns the empty
list — a partial scope list that silently omits the unmapped member. -/
theorem c2_missing_mapping_counterexample :
    "calendar" ∈ get_required_services cfgNoMapping ∧
    alist_get (cfgNoMapping.scope_mappings.getD []) "calendar" = none ∧
    get_required_scopes cfgNoMapping = [] := by
  decide

/-- C2 amended: `get_required_scopes` never fails; a closure member with no
mapping is skipped (warning only), so every returned scope comes from a
mapped member; the missing mapping is instead reported by
`validate_configuration`, which returns ok = false and an error naming the
service. -/
theorem c2_missing_mapping_reported_by_validate (cfg : ScopeConfig) (s : String)
    (h1 : cfg.enabled_services.isSome = true)
    (h2 : cfg.scope_dependencies.isSome = true)
    (h3 : cfg.scope_mappings.isSome = true)
    (hs : s ∈ get_required_services cfg)
    (hm : alist_get (cfg.scope_mappings.getD []) s = none) :
    (validate_configuration cfg).1 = false ∧
    ("Missing scope mapping for service: " ++ s) ∈ (validate_configuration cfg).2 ∧
    ∀ m ∈ get_required_scopes cfg,
      ∃ t, t ∈ get_required_services cfg ∧
        alist_get (cfg.scope_mappings.getD []) t = some m := by
  have hmsg : ("Missing scope mapping for service: " ++ s) ∈
      validate_scope_mappings_errors cfg := by
    unfold validate_scope_mappings_errors
    exact List.mem_filterMap.mpr ⟨s, hs, by simp [hm]⟩
  have hval : validate_configuration cfg =
      ((validate_dependencies_errors cfg ++ validate_scope_mappings_errors cfg).isEmpty,
        validate_dependencies_errors cfg ++ validate_scope_mappings_errors cfg) := by
    simp [validate_configuration, h1, h2, h3]
  refine ⟨?_, ?_, ?_⟩
  · rw [hval]
    simp only []
    have : validate_dependencies_errors cfg ++ validate_scope_mappings_errors cfg ≠ [] :=
      List.ne_nil_of_mem (List.mem_append_right _ hmsg)
    simpa [List.isEmpty_iff] using this
  · rw [hval]
    exact List.mem_append_right _ hmsg
  · intro m hm'
    exact List.mem_filterMap.mp hm'

/-- Witness for C2's amended theorem, at the concrete configuration of the
counterexample. -/
theorem c2_missing_mapping_reported_by_validate_witness :
    (validate_configuration cfgNoMapping).1 = false ∧
    ("Missing scope mapping for service: " ++ "calendar") ∈
      (validate_configuration cfgNoMapping).2 ∧
    ∀ m ∈ get_required_scopes cfgNoMapping,
      ∃ t, t ∈ get_required_services cfgNoMapping ∧
        alist_get (cfgNoMapping.scope_mappings.getD []) t = some m :=
  c2_missing_mapping_reported_by_validate cfgNoMapping "calendar"
    rfl rfl rfl (by decide) rfl

/-- Counterexample for C4: in `cfgChain`, "c" is transitively reachable
from the enabled set ("a" is enabled, "b" is a declared dependency of "a",
"c" is a declared dependency of "b") and "c" has a scope mapping, yet its
scope is missing from `get_required_scopes`: the source adds only one
level of dependencies, not the transitive closure. -/
theorem c4_transitive_dependency_missing :
    "a" ∈ get_enabled_services cfgChain ∧
    "b" ∈ (alist_get (cfgChain.scope_dependencies.getD []) "a").getD [] ∧
    "c" ∈ (alist_get (cfgChain.scope_dependencies.getD []) "b").getD [] ∧
    alist_get (cfgChain.scope_mappings.getD []) "c" = some "scope:c" ∧
    get_required_scopes cfgChain = ["scope:a", "scope:b"] ∧
    "scope:c" ∉ get_required_scopes cfgChain := by
  decide

/-- C4 amended: for every configuration, `get_required_scopes` covers each
enabled integration and each of its directly declared dependencies — one
dependency level, not the full transitive closure. -/
theorem c4_direct_dependency_closure (cfg : ScopeConfig) (s d m : String)
    (hs : s ∈ get_enabled_services cfg) :
    (∀ ms, alist_get (cfg.scope_mappings.getD []) s = some ms →
      ms ∈ get_required_scopes cfg) ∧
    (d ∈ (alist_get (cfg.scope_dependencies.getD []) s).getD [] →
      alist_get (cfg.scope_mappings.getD []) d = some m →
      m ∈ get_required_scopes cfg) := by
  have hs' : s ∈ get_required_services cfg := by
    unfold get_required_services
    exact List.mem_dedup.mpr (List.mem_append_left _ hs)
  constructor
  · intro ms hms
    exact List.mem_filterMap.mpr ⟨s, hs', hms⟩
  · intro hd hm
    have hd' : d ∈ get_required_services cfg := by
      unfold get_required_services
      exact List.mem_dedup.mpr
        (List.mem_append_right _ (List.mem_flatMap.mpr ⟨s, hs, hd⟩))
    exact List.mem_filterMap.mpr ⟨d, hd', hm⟩

/-- Witness for C4's amended theorem: in the default configuration, the
enabled service "docs" contributes its own scope and its direct
dependency "drive" contributes the drive scope. -/
theorem c4_direct_dependency_closure_witness :
    "https://www.googleapis.com/auth/documents" ∈ get_required_scopes get_default_config ∧
    "https://www.googleapis.com/auth/drive.file" ∈ get_required_scopes get_default_config :=
  ⟨(c4_direct_dependency_closure get_default_config "docs" "drive"
      "https://www.googleapis.com/auth/drive.file" (by decide)).1
      "https://www.googleapis.com/auth/documents" rfl,
   (c4_direct_dependency_closure get_default_config "docs" "drive"
      "https://www.googleapis.com/auth/drive.file" (by decide)).2
      (by decide) rfl⟩

/-- A stored credential that is structurally valid and far from expiry but
was granted only the calendar scope — drifted from the default required
set of four scopes. -/
def credDrifted : Credential :=
  { token := "stale-token"
  , valid := true
  , expired := false
  , expiry := some 1000000
  , refresh_token_present := true
  , scopes := ["https://www.googleapis.com/auth/calendar"] }

/-- A freshly authorized credential carrying the full required scope set. -/
def credFresh : Credential :=
  { token := "fresh-token"
  , valid := true
  , expired := false
  , expiry := some 7200
  , refresh_token_present := true
  , scopes := get_required_scopes get_default_config }

/-- An invalid, expired credential whose refresh token is present. -/
def credExpired : Credential :=
  { token := "expired-token"
  , valid := false
  , expired := true
  , expiry := some (-100)
  , refresh_token_present := true
  , scopes := get_required_scopes get_default_config }

/-- A valid credential expiring 300 seconds from `now = 0`. -/
def credNear : Credential :=
  { token := "near-expiry-token"
  , valid := true
  , expired := false
  , expiry := some 300
  , refresh_token_present := true
  , scopes := get_required_scopes get_default_config }

/-- A valid credential expiring 3600 seconds from `now = 0`, as issued by a
successful refresh. -/
def credRefreshed : Credential :=
  { token := "refreshed-token"
  , valid := true
  , expired := false
  , expiry := some 3600
  , refresh_token_present := true
  , scopes := get_required_scopes get_default_config }

/-- Environment in which the refresh endpoint succeeds and the interactive
flow would also succeed (it is never reached in the scenarios using it). -/
def envRefreshOk : Env :=
  { refresh := fun _ => .ok credRefreshed
  , authenticate := .ok credFresh }

/-- Environment in which refresh fails with `RefreshError` and the full
authorization flow succeeds. -/
def envReauthOk : Env :=
  { refresh := fun _ => .error "invalid_grant: Token has been revoked"
  , authenticate := .ok credFresh }

/-- Environment in which both refresh and the authorization flow fail. -/
def envAllFail : Env :=
  { refresh := fun _ => .error "invalid_grant: Token has been revoked"
  , authenticate := .error "Credentials file not found at config/credentials.json" }

/-- Manager state holding the drifted-but-valid credential. -/
def stateDrifted : AuthState :=
  { config := get_default_config
  , creds := some credDrifted
  , now := 0
  , refresh_calls := 0
  , auth_calls := 0
  , save_calls := 0
  , saved := none }

/-- Manager state holding the invalid expired credential. -/
def stateExpired : AuthState :=
  { config := get_default_config
  , creds := some credExpired
  , now := 0
  , refresh_calls := 0
  , auth_calls := 0
  , save_calls := 0
  , saved := none }

/-- Manager state holding the near-expiry credential (expiry = now + 300). -/
def stateNear : AuthState :=
  { config := get_default_config
  , creds := some credNear
  , now := 0
  , refresh_calls := 0
  , auth_calls := 0
  , save_calls := 0
  , saved := none }

/-- Whenever a credential is held, `refresh_token` makes exactly one call
to the refresh endpoint, on every control path. -/
theorem refresh_token_counts (e : Env) (s : AuthState) (c : Credential)
    (hc : s.creds = some c) :
    (refresh_token e s).1.refresh_calls = s.refresh_calls + 1 := by
  simp only [refresh_token, hc]
  cases e.refresh c with
  | ok c' => simp [save_credentials]
  | error m =>
    simp only [authenticate_and_save]
    cases e.authenticate with
    | ok cN => simp [save_credentials]
    | error m' => simp

/-- When the proactive or the reactive trigger fires, the body of
`ensure_valid_credentials` is exactly `refresh_token`. -/
theorem ensure_valid_state_eq (e : Env) (s : AuthState)
    (h : should_refresh_token s = true ∨ credsValid s = false) :
    (ensure_valid_credentials e s).1 = (refresh_token e s).1 := by
  have hstep : (if should_refresh_token s then refresh_token e s
      else if !credsValid s then refresh_token e s else (s, none)) = refresh_token e s := by
    rcases h with h | h
    · rw [h]; simp
    · rw [h]; cases should_refresh_token s <;> simp
  simp only [ensure_valid_credentials, hstep]
  cases hr : refresh_token e s with
  | mk s' err => cases err <;> simp

/-- C7: `should_refresh_token` is true exactly when a credential with an
expiry is held and expiry − now is at most `TOKEN_REFRESH_BUFFER`, the
buffer is the fixed value 600 seconds, and whenever the predicate holds
`ensure_valid_credentials` makes exactly one refresh call. -/
theorem c7_should_refresh_token_spec (e : Env) (s : AuthState) :
    TOKEN_REFRESH_BUFFER = 600 ∧
    (should_refresh_token s = true ↔
      ∃ c t, s.creds = some c ∧ c.expiry = some t ∧ t - s.now ≤ TOKEN_REFRESH_BUFFER) ∧
    (should_refresh_token s = true →
      (ensure_valid_credentials e s).1.refresh_calls = s.refresh_calls + 1) := by
  refine ⟨rfl, ?_, ?_⟩
  · cases hc : s.creds with
    | none => simp [should_refresh_token, hc]
    | some c =>
      cases he : c.expiry with
      | none => simp [should_refresh_token, hc, he]
      | some t => simp [should_refresh_token, hc, he]
  · intro h
    cases hc : s.creds with
    | none => simp [should_refresh_token, hc] at h
    | some c =>
      rw [ensure_valid_state_eq e s (Or.inl h)]
      exact refresh_token_counts e s c hc

/-- Witness for C7: the near-expiry state triggers exactly one refresh. -/
theorem c7_should_refresh_token_spec_witness :
    (ensure_valid_credentials envRefreshOk stateNear).1.refresh_calls =
      stateNear.refresh_calls + 1 :=
  (c7_should_refresh_token_spec envRefreshOk stateNear).2.2 (by decide)

deriving instance DecidableEq for Except

/-- Counterexample for C1: the manager holds a valid, unexpired credential
whose granted scopes have drifted from the required set, yet
`ensure_valid_credentials` performs no drift check at all — it returns the
stale drifted credential unchanged, with no refresh and no
reauthorization. -/
theorem c1_drift_not_checked_counterexample :
    has_scope_changes stateDrifted.config credDrifted.scopes = true ∧
    credDrifted.valid = true ∧
    should_refresh_token stateDrifted = false ∧
    ensure_valid_credentials envRefreshOk stateDrifted =
      (stateDrifted, .ok (some credDrifted)) := by
  decide

/-- C1 amended: scope drift is checked once per `initialize` call (not per
`ensure_valid_credentials` call), before the validity/expiry handling:
when the stored credential's scopes are non-empty and drift from the
required set, `initialize` discards it and runs the full authorization
flow — even though the credential is valid and unexpired — and makes no
refresh call. -/
theorem c1_drift_checked_by_initialize_only (e : Env) (s : AuthState)
    (c0 cN : Credential)
    (hv : (validate_configuration s.config).1 = true)
    (hsc : c0.scopes.isEmpty = false)
    (hd : has_scope_changes s.config c0.scopes = true)
    (_hvalid : c0.valid = true)
    (_hexp : c0.expired = false)
    (ha : e.authenticate = .ok cN) :
    initializeManager e (some c0) s =
      (save_credentials { s with creds := some cN, auth_calls := s.auth_calls + 1 },
        none) ∧
    (initializeManager e (some c0) s).1.refresh_calls = s.refresh_calls := by
  have hmain : initializeManager e (some c0) s =
      (save_credentials { s with creds := some cN, auth_calls := s.auth_calls + 1 },
        none) := by
    simp only [initializeManager, hv, hsc, hd, Bool.not_false, Bool.and_self,
      if_true, authenticate_and_save, ha]
    simp
  refine ⟨hmain, ?_⟩
  rw [hmain]
  simp [save_credentials]

/-- Witness for C1's amended theorem: the drifted-but-valid stored
credential forces the full authorization flow at startup. -/
theorem c1_drift_checked_by_initialize_only_witness :
    initializeManager envReauthOk (some credDrifted) stateDrifted =
      (save_credentials
        { stateDrifted with
            creds := some credFresh
            auth_calls := stateDrifted.auth_calls + 1 },
        none) :=
  (c1_drift_checked_by_initialize_only envReauthOk stateDrifted credDrifted credFresh
    (by decide) (by decide) (by decide) rfl rfl rfl).1

/-- The full result of `ensure_valid_credentials` when a trigger fires, a
credential is held, the refresh endpoint rejects with `RefreshError`, and
the authorization flow also fails: one refresh attempt and one
authorization attempt are recorded and the flow's error escapes. -/
theorem ensure_valid_both_fail (e : Env) (s : AuthState) (c : Credential)
    (m m' : String)
    (hc : s.creds = some c)
    (hr : e.refresh c = .error m)
    (ha : e.authenticate = .error m')
    (htrig : should_refresh_token s = true ∨ credsValid s = false) :
    ensure_valid_credentials e s =
      ({ s with
          refresh_calls := s.refresh_calls + 1
          auth_calls := s.auth_calls + 1 },
        .error (.authError m')) := by
  have hrt : refresh_token e s =
      ({ s with
          refresh_calls := s.refresh_calls + 1
          auth_calls := s.auth_calls + 1 },
        some (.authError m')) := by
    simp only [refresh_token, hc, hr, authenticate_and_save, ha]
  rcases htrig with h | h
  · simp [ensure_valid_credentials, h, hrt]
  · cases hsr : should_refresh_token s
    · simp [ensure_valid_credentials, hsr, h, hrt]
    · simp [ensure_valid_credentials, hsr, hrt]

/-- Counterexample for C5: after a call in which refresh and the
authorization flow both fail, the manager is in no terminal state — the
very next `ensure_valid_credentials` call auto-retries the refresh and
the interactive authorization flow (the `_authenticate` invocation count
rises from 1 to 2), instead of failing fast without retrying. -/
theorem c5_auto_retry_counterexample :
    (ensure_valid_credentials envAllFail stateExpired).2 =
      .error (.authError "Credentials file not found at config/credentials.json") ∧
    (ensure_valid_credentials envAllFail stateExpired).1.auth_calls = 1 ∧
    (ensure_valid_credentials envAllFail
        (ensure_valid_credentials envAllFail stateExpired).1).1.auth_calls = 2 ∧
    (ensure_valid_credentials envAllFail
        (ensure_valid_credentials envAllFail stateExpired).1).1.refresh_calls = 2 := by
  decide

/-- C5 amended: the manager records no terminal `Unrecoverable` state.
When refresh fails with `RefreshError` and the authorization flow then
fails, the flow's error is surfaced to the caller, and every subsequent
`ensure_valid_credentials` call — from any such state, however many
failures preceded it — auto-retries: it performs exactly one new refresh
attempt and one new authorization attempt and surfaces the same error,
until the process restarts or the environment changes. -/
theorem c5_no_terminal_failure_state (e : Env) (s : AuthState) (c : Credential)
    (m m' : String)
    (hc : s.creds = some c)
    (hr : e.refresh c = .error m)
    (ha : e.authenticate = .error m')
    (htrig : should_refresh_token s = true ∨ credsValid s = false) :
    (ensure_valid_credentials e s).2 = .error (.authError m') ∧
    (ensure_valid_credentials e s).1.refresh_calls = s.refresh_calls + 1 ∧
    (ensure_valid_credentials e s).1.auth_calls = s.auth_calls + 1 ∧
    (ensure_valid_credentials e s).1.creds = s.creds ∧
    (ensure_valid_credentials e s).1.now = s.now ∧
    (ensure_valid_credentials e s).1.config = s.config := by
  rw [ensure_valid_both_fail e s c m m' hc hr ha htrig]
  exact ⟨rfl, rfl, rfl, hc.symm ▸ rfl, rfl, rfl⟩

/-- Witness for C5's amended theorem at the concrete failing environment. -/
theorem c5_no_terminal_failure_state_witness :
    (ensure_valid_credentials envAllFail stateExpired).2 =
      .error (.authError "Credentials file not found at config/credentials.json") ∧
    (ensure_valid_credentials envAllFail stateExpired).1.refresh_calls =
      stateExpired.refresh_calls + 1 ∧
    (ensure_valid_credentials envAllFail stateExpired).1.auth_calls =
      stateExpired.auth_calls + 1 ∧
    (ensure_valid_credentials envAllFail stateExpired).1.creds = stateExpired.creds ∧
    (ensure_valid_credentials envAllFail stateExpired).1.now = stateExpired.now ∧
    (ensure_valid_credentials envAllFail stateExpired).1.config = stateExpired.config :=
  c5_no_terminal_failure_state envAllFail stateExpired credExpired
    "invalid_grant: Token has been revoked"
    "Credentials file not found at config/credentials.json"
    rfl rfl rfl (Or.inl (by decide))

/-- C8: when a trigger fires and the refresh attempt raises `RefreshError`,
the manager falls back to the full authorization flow; on flow success the
newly issued credential replaces the stale one, is persisted, and is the
credential returned to the caller. -/
theorem c8_refresh_error_triggers_reauth (e : Env) (s : AuthState)
    (c cN : Credential) (m : String)
    (hc : s.creds = some c)
    (htrig : should_refresh_token s = true ∨ credsValid s = false)
    (hr : e.refresh c = .error m)
    (ha : e.authenticate = .ok cN) :
    (ensure_valid_credentials e s).2 = .ok (some cN) ∧
    (ensure_valid_credentials e s).1.creds = some cN ∧
    (ensure_valid_credentials e s).1.saved = some cN ∧
    (ensure_valid_credentials e s).1.auth_calls = s.auth_calls + 1 := by
  have hrt : refresh_token e s =
      (save_credentials
        { s with
            creds := some cN
            refresh_calls := s.refresh_calls + 1
            auth_calls := s.auth_calls + 1 },
        none) := by
    simp only [refresh_token, hc, hr, authenticate_and_save, ha]
  rcases htrig with h | h
  · simp [ensure_valid_credentials, h, hrt, save_credentials]
  · cases hsr : should_refresh_token s
    · simp [ensure_valid_credentials, hsr, h, hrt, save_credentials]
    · simp [ensure_valid_credentials, hsr, hrt, save_credentials]

/-- Witness for C8: the revoked-refresh environment with a successful
authorization flow hands every caller the fresh credential. -/
theorem c8_refresh_error_triggers_reauth_witness :
    (ensure_valid_credentials envReauthOk stateExpired).2 = .ok (some credFresh) ∧
    (ensure_valid_credentials envReauthOk stateExpired).1.creds = some credFresh ∧
    (ensure_valid_credentials envReauthOk stateExpired).1.saved = some credFresh ∧
    (ensure_valid_credentials envReauthOk stateExpired).1.auth_calls =
      stateExpired.auth_calls + 1 :=
  c8_refresh_error_triggers_reauth envReauthOk stateExpired credExpired credFresh
    "invalid_grant: Token has been revoked" rfl (Or.inl (by decide)) rfl rfl

/-- A call that finds a valid credential outside the refresh buffer does
nothing: it returns the held credential and leaves the state unchanged. -/
theorem ensure_valid_stable (e : Env) (s : AuthState)
    (h1 : should_refresh_token s = false) (h2 : credsValid s = true) :
    ensure_valid_credentials e s = (s, .ok s.creds) := by
  simp [ensure_valid_credentials, h1, h2]

/-- Iterated calls on a stable state are all no-ops. -/
theorem ensureValidN_stable (e : Env) (n : Nat) (s : AuthState)
    (h1 : should_refresh_token s = false) (h2 : credsValid s = true) :
    ensureValidN e n s = s := by
  induction n with
  | zero => rfl
  | succ k ih =>
    have hstep : ensureValidN e (k + 1) s =
        ensureValidN e k (ensure_valid_credentials e s).1 := rfl
    rw [hstep, ensure_valid_stable e s h1 h2]
    exact ih

/-- C3: the refresh lock serialises the check-and-refresh critical section,
so a burst of concurrent callers executes as a sequence of atomic
`ensure_valid_credentials` transitions.  For a credential with expiry
= now + 300 s against the 600 s buffer, 50 such lock-serialised calls
make exactly one call to the refresh endpoint, provided the refreshed
credential is valid and expires beyond the buffer: the first caller
refreshes, and every caller that blocked on the lock re-evaluates the
updated credential and does not refresh again. -/
theorem c3_single_refresh_under_lock (e : Env) (s : AuthState)
    (c c' : Credential) (t' : Int)
    (hc : s.creds = some c)
    (he : c.expiry = some (s.now + 300))
    (hr : e.refresh c = .ok c')
    (hv' : c'.valid = true)
    (he' : c'.expiry = some t')
    (hfar : TOKEN_REFRESH_BUFFER < t' - s.now)
    (h0 : s.refresh_calls = 0) :
    (ensureValidN e 50 s).refresh_calls = 1 := by
  have hsr : should_refresh_token s = true := by
    simp only [should_refresh_token, hc, he, TOKEN_REFRESH_BUFFER,
      decide_eq_true_eq]
    omega
  have hafter : (ensure_valid_credentials e s).1 =
      { s with
          creds := some c'
          refresh_calls := s.refresh_calls + 1
          save_calls := s.save_calls + 1
          saved := some c' } := by
    have hrt : refresh_token e s =
        ({ s with
            creds := some c'
            refresh_calls := s.refresh_calls + 1
            save_calls := s.save_calls + 1
            saved := some c' }, none) := by
      simp only [refresh_token, hc, hr, save_credentials]
    simp [ensure_valid_credentials, hsr, hrt]
  have h1' : should_refresh_token
      { s with
          creds := some c'
          refresh_calls := s.refresh_calls + 1
          save_calls := s.save_calls + 1
          saved := some c' } = false := by
    simp only [should_refresh_token, he', decide_eq_false_iff_not]
    simp only [TOKEN_REFRESH_BUFFER] at hfar ⊢
    omega
  have h2' : credsValid
      { s with
          creds := some c'
          refresh_calls := s.refresh_calls + 1
          save_calls := s.save_calls + 1
          saved := some c' } = true := by
    simp [credsValid, hv']
  have hfirst : ensureValidN e 50 s =
      ensureValidN e 49 (ensure_valid_credentials e s).1 := rfl
  rw [hfirst, hafter, ensureValidN_stable e 49 _ h1' h2']
  simp [h0]

/-- Witness for C3 at the concrete near-expiry state and refreshing
environment. -/
theorem c3_single_refresh_under_lock_witness :
    (ensureValidN envRefreshOk 50 stateNear).refresh_calls = 1 :=
  c3_single_refresh_under_lock envRefreshOk stateNear credNear credRefreshed 3600
    rfl (by decide) rfl rfl rfl (by decide) rfl
